import Mathlib

/-!
# Verification of the kpi front-end submission/analysis/billing logic

Shallow embedding of:
* `src/jsapp/js/components/submissions/submissionModal.tsx`
  (`getSubmission` success and failure handlers, `refreshSubmissionValidationStatus`,
  `triggerRefresh`, `switchSubmission`, `switchSubmissionFromOtherTablePage`),
* `src/unnamed/part_000` (`ProtectorHelpers.safeExecute`, `useDisplayPrice`),
* the analysis reducer contract used by
  `src/jsapp/js/components/processing/analysis/analysisTab.component.tsx`.

JavaScript numbers that hold identifiers or page counters are modelled as `Int`,
monetary amounts as `ℚ`; JS truthiness of a number is `≠ 0`, of a string is `≠ ""`,
of a possibly-`undefined` value is `Option`-presence plus the underlying test.
-/

/-! ## Submission modal: data model -/

/-- JS truthiness for a possibly-absent string (`undefined`/`null` and `""` are falsy). -/
def strTruthy : Option String → Bool
  | some s => s ≠ ""
  | none => false

/-- Substitution helper on character lists: replace the first occurrence of `pat`. -/
def jsReplaceFirstAux (pat rep : List Char) : List Char → List Char
  | [] => []
  | c :: rest =>
    if pat.isPrefixOf (c :: rest) then rep ++ (c :: rest).drop pat.length
    else c :: jsReplaceFirstAux pat rep rest

/-- JS `String.prototype.replace` with a plain-string pattern: replaces the
first occurrence of `pat` in `s` by `rep`. -/
def jsStringReplace (s pat rep : String) : String :=
  ⟨jsReplaceFirstAux pat.data rep.data s.data⟩

/-- `tableInfo` prop of `SubmissionModal` (the non-boolean alternative):
`{ resultsTotal, pageSize, currentPage }`. -/
structure TableInfo where
  resultsTotal : Int
  pageSize : Int
  currentPage : Int
deriving Repr, DecidableEq

/-- Validation status response object; `uid` is the field whose truthiness
`refreshSubmissionValidationStatus` tests (`result && result.uid`). -/
structure ValidationStatusResponse where
  uid : Option String
  by_whom : Option String
  timestamp : Option Int
deriving Repr, DecidableEq

/-- Submission record (`SubmissionResponse`). `_validation_status` is either a full
response object or the empty object `{}` (modelled `none`); `otherData` stands for
all remaining fields of the record (form answers, attachment metadata, ...). -/
structure SubmissionResponse where
  _id : Int
  _uuid : String
  _validation_status : Option ValidationStatusResponse
  otherData : List (String × String)
deriving Repr, DecidableEq

/-- The slice of `SubmissionModalState` that the verified handlers touch. -/
structure ModalState where
  submission : Option SubmissionResponse
  isFetchingSubmissionData : Bool
  /-- `false` (no error, modelled `none`) or the error message. -/
  submissionDataFetchError : Option String
  previous : Int
  next : Int
  sid : String
  isRefreshNeeded : Bool
  isValidationStatusChangePending : Bool
deriving Repr, DecidableEq

/-! ## Submission modal: previous/next computation (`getSubmission` success branch) -/

/-- JS indexing `ids[i]` where `i` may be negative or out of bounds (then `undefined`). -/
def jsIndex (ids : List Int) (i : Int) : Option Int :=
  if i < 0 then none else ids.get? i.toNat

/-- JS truthiness of `ids[i]`: `undefined` and `0` are falsy. -/
def jsIndexTruthy (ids : List Int) (i : Int) : Bool :=
  match jsIndex ids i with
  | some v => v ≠ 0
  | none => false

/-- The previous/next computation in the `.done` branch of `getSubmission`
(submissionModal.tsx lines 186–210).  `c` is `ids.findIndex((k) => k === Number.parseInt(sid))`
(`-1` when absent); `prev`/`next` start at `-1`, are set to `ids[c-1]` / `ids[c+1]`
when those are truthy, and when `tableInfo` is an object the pagination sentinels
apply: `next = -2` when `c + 1 === ids.length` and another page of results exists,
`prev = -2` when `currentPage > 0` and `prev` is still `-1`.
The enclosing guard `if (this.props.ids && sid)` is assumed passed: `ids` is a
non-optional prop and `sid` a non-empty id string, `sid : Int` being its parsed value. -/
def computePrevNext (ids : List Int) (sid : Int) (tableInfo : Option TableInfo) :
    Int × Int :=
  let c : Int :=
    match ids.findIdx? (fun k => k = sid) with
    | some i => (i : Int)
    | none => -1
  let prev1 : Int :=
    if jsIndexTruthy ids (c - 1) then (jsIndex ids (c - 1)).getD (-1) else -1
  let next1 : Int :=
    if jsIndexTruthy ids (c + 1) then (jsIndex ids (c + 1)).getD (-1) else -1
  match tableInfo with
  | none => (prev1, next1)
  | some ti =>
    let nextAvailable := ti.resultsTotal > (ti.currentPage + 1) * ti.pageSize
    let next2 : Int := if c + 1 = (ids.length : Int) ∧ nextAvailable then -2 else next1
    let prev2 : Int := if ti.currentPage > 0 ∧ prev1 = -1 then -2 else prev1
    (prev2, next2)

/-- The state update performed by the `.done` branch of `getSubmission`:
stores the fetched record, clears the fetching flag, stores previous/next. -/
def getSubmissionDoneHandler (ids : List Int) (sid : Int) (tableInfo : Option TableInfo)
    (data : SubmissionResponse) (st : ModalState) : ModalState :=
  let pn := computePrevNext ids sid tableInfo
  { st with
    submission := some data
    isFetchingSubmissionData := false
    previous := pn.1
    next := pn.2 }

/-! ## Submission modal: failure handler of `getSubmission` -/

/-- The constant `DETAIL_NOT_FOUND` (submissionModal.tsx line 30). -/
def DETAIL_NOT_FOUND : String := "\x7b\"detail\":\"Not found.\"\x7d"

/-- The friendly message template used for a not-found submission. -/
def NOT_FOUND_TEMPLATE : String :=
  "The submission could not be found. It may have been deleted. Submission ID: ##id##"

/-- The fixed fallback error message. -/
def FALLBACK_ERROR : String := "Error: could not load data."

/-- `FailResponse` as the failure handler reads it: both fields may be absent. -/
structure FailResponse where
  responseText : Option String
  statusText : Option String
deriving Repr, DecidableEq

/-- Side effects the modal code can issue (network requests, page-level store calls). -/
inductive Effect where
  | fetchSubmission (assetUid : String) (sid : String)
  | showModalSubmission (sid : Int) (ids : List Int) (tableInfo : Option TableInfo)
  | showModalOtherPage (page : String)
  | refreshTableSubmissions
deriving Repr, DecidableEq

/-- The `.fail` branch of `getSubmission` (submissionModal.tsx lines 219–236):
if `error.responseText` is truthy it becomes the message, with the special-cased
`DETAIL_NOT_FOUND` body replaced by the friendly template with the submission id
substituted; otherwise a truthy `error.statusText` is used; otherwise the fixed
fallback.  Each branch just stores the message and clears the fetching flag; no
network request is issued (the effect list is empty). -/
def getSubmissionFailHandler (error : FailResponse) (sid : String) (st : ModalState) :
    ModalState × List Effect :=
  if strTruthy error.responseText then
    let error_message := error.responseText.getD ""
    let error_message :=
      if error_message = DETAIL_NOT_FOUND then
        jsStringReplace NOT_FOUND_TEMPLATE "##id##" sid
      else error_message
    ({ st with
        submissionDataFetchError := some error_message
        isFetchingSubmissionData := false }, [])
  else if strTruthy error.statusText then
    ({ st with
        submissionDataFetchError := error.statusText
        isFetchingSubmissionData := false }, [])
  else
    ({ st with
        submissionDataFetchError := some FALLBACK_ERROR
        isFetchingSubmissionData := false }, [])

/-! ## Submission modal: validation status refresh -/

/-- `refreshSubmissionValidationStatus` (submissionModal.tsx lines 145–161):
clears the pending flag; if no submission is loaded it returns; otherwise it
deep-clones the submission, sets `_validation_status` to the result when
`result && result.uid` is truthy and to `{}` otherwise, and stores the clone. -/
def refreshSubmissionValidationStatus (result : Option ValidationStatusResponse)
    (st : ModalState) : ModalState :=
  let st1 := { st with isValidationStatusChangePending := false }
  match st1.submission with
  | none => st1
  | some sub =>
    let newSubmissionData :=
      match result with
      | some r =>
        if strTruthy r.uid then { sub with _validation_status := some r }
        else { sub with _validation_status := none }
      | none => { sub with _validation_status := none }
    { st1 with submission := some newSubmissionData }

/-! ## Submission modal: navigation and refresh actions -/

/-- The synchronous part of `getSubmission` (line 181 plus the issued request):
sets the fetching flag and fires the network request. -/
def getSubmissionStart (assetUid sid : String) (st : ModalState) :
    ModalState × List Effect :=
  ({ st with isFetchingSubmissionData := true }, [Effect.fetchSubmission assetUid sid])

/-- `triggerRefresh` (lines 332–337): calls `getSubmission`, clears
`isRefreshNeeded`, and prompts the table to refresh its submission list. -/
def triggerRefresh (assetUid sid : String) (st : ModalState) : ModalState × List Effect :=
  let step := getSubmissionStart assetUid sid st
  ({ step.1 with isRefreshNeeded := false }, step.2 ++ [Effect.refreshTableSubmissions])

/-- `switchSubmission` (lines 343–356): sets the fetching flag and asks the page
store to replace this modal with one for the adjacent submission. -/
def switchSubmission (prevOrNext : Int) (ids : List Int) (tableInfo : Option TableInfo)
    (st : ModalState) : ModalState × List Effect :=
  ({ st with isFetchingSubmissionData := true },
   [Effect.showModalSubmission prevOrNext ids tableInfo])

/-- `switchSubmissionFromOtherTablePage` (lines 363–370): sets the fetching flag and
asks the page store to load the adjacent table page. -/
def switchSubmissionFromOtherTablePage (newPage : String) (st : ModalState) :
    ModalState × List Effect :=
  ({ st with isFetchingSubmissionData := true }, [Effect.showModalOtherPage newPage])

/-- The state a freshly constructed `SubmissionModal` starts from (constructor,
lines 101–118): no submission loaded, fetching flag set, no error, sentinels `-1`. -/
def initialModalState (sid : String) : ModalState :=
  { submission := none
    isFetchingSubmissionData := true
    submissionDataFetchError := none
    previous := -1
    next := -1
    sid := sid
    isRefreshNeeded := false
    isValidationStatusChangePending := false }

/-- `componentDidMount` (line 132): a newly shown modal immediately fetches its
submission from the server. -/
def componentDidMount (assetUid : String) (st : ModalState) : ModalState × List Effect :=
  getSubmissionStart assetUid st.sid st

/-! ## ProtectorHelpers.safeExecute -/

/-- `ProtectorHelpers.safeExecute` (src/unnamed/part_000 lines 10–18), with the
result of the synchronous `confirm(UNSAVED_CHANGES_WARNING)` prompt passed in as
`confirmResult` and the callback modelled as a state transformer. -/
def safeExecute {α : Type} (shouldProtect : Bool) (confirmResult : Bool)
    (callback : α → α) (st : α) : α :=
  if shouldProtect then
    if confirmResult then callback st else st
  else callback st

/-- Number of times `safeExecute` invokes its callback, obtained by instantiating
the callback with a counter increment. -/
def safeExecuteCount (shouldProtect : Bool) (confirmResult : Bool) : Nat :=
  safeExecute shouldProtect confirmResult (fun n => n + 1) 0

/-! ## useDisplayPrice -/

/-- `price.recurring` as read by `useDisplayPrice`: only `interval` matters. -/
structure Recurring where
  interval : String
deriving Repr, DecidableEq

/-- The Stripe `transform_quantity` descriptor attached to a price. -/
structure TransformQuantity where
  divide_by : Int
  roundMode : String
deriving Repr, DecidableEq

/-- The slice of the Stripe `Price` type that `useDisplayPrice` reads.  Monetary
amounts are exact rationals.  `unit_amount` may be `null`/`undefined` (`none`). -/
structure Price where
  unit_amount : Option ℚ
  recurring : Option Recurring
  transform_quantity : Option TransformQuantity
deriving Repr, DecidableEq

/-- Executable floor of a rational (floor division of numerator by denominator). -/
def ratFloor (x : ℚ) : Int := Int.fdiv x.num x.den

/-- Executable round-to-nearest on ℚ (`⌊x + 1/2⌋`). -/
def ratRound (x : ℚ) : Int := ratFloor (x + 1 / 2)

/-- `Number.prototype.toFixed(2)`: round to the nearest hundredth and print with
exactly two decimals (modelled over ℚ; every value the claims evaluate is exact
at two decimals, so binary-float tie behaviour does not arise). -/
def toFixed2 (x : ℚ) : String :=
  let n : Int := ratRound (x * 100)
  let m : Int := |n|
  let sign := if n < 0 then "-" else ""
  let frac : Int := m % 100
  let fracStr := if frac < 10 then "0" ++ toString frac else toString frac
  sign ++ toString (m / 100) ++ "." ++ fracStr

/-- `useDisplayPrice` (src/unnamed/part_000 lines 29–43).  The helper
`getAdjustedQuantityForPrice` lives in `#/account/stripe.utils`, which is not part
of the sources; per the spec it supplies "a caller-supplied adjustment factor"
that the price is multiplied by, so it is passed in abstractly as `adjust`.
The translation function `t` is the identity on the template strings. -/
def useDisplayPrice (adjust : ℚ → Option TransformQuantity → ℚ)
    (price : Option Price) (submissionQuantity : ℚ) : String :=
  match price with
  | none => "Free"
  | some p =>
    match p.unit_amount with
    | none => "Free"
    | some ua =>
      if ua = 0 then "Free"
      else
        let totalPrice := ua / 100
        let totalPrice :=
          if p.recurring.map Recurring.interval = some "year" then totalPrice / 12
          else totalPrice
        let totalPrice := totalPrice * adjust submissionQuantity p.transform_quantity
        if ¬ strTruthy (p.recurring.map Recurring.interval) then
          jsStringReplace "$##price##" "##price##" (toFixed2 totalPrice)
        else
          jsStringReplace "$##price## USD/month" "##price##" (toFixed2 totalPrice)

/-- Default value of the `submissionQuantity` parameter (`submissionQuantity = 1`). -/
def defaultSubmissionQuantity : ℚ := 1

/-! ## Analysis reducer (spec-modelled)

`analysisQuestions.reducer` is not among the sources — only its caller
`analysisTab.component.tsx` is — so the reducer is modelled from the spec. -/

/-- Modelled from the spec: an analysis question paired with "zero or one response
value" and the last-saved value of that response (`analysisQuestions.reducer` and
its question type are missing from the sources).  `response = none` is "no
response". -/
structure AnalysisQuestion where
  uuid : String
  response : Option String
  savedResponse : Option String
deriving Repr, DecidableEq

/-- Modelled from the spec: the reducer state `{questions, hasUnsavedWork}`. -/
structure AnalysisState where
  questions : List AnalysisQuestion
  hasUnsavedWork : Bool
deriving Repr, DecidableEq

/-- Modelled from the spec: the closed set of action kinds driving the reducer —
"initialize with schema+responses, edit a response, mark saved".  `setQuestions`
carries the schema-derived questions already merged with the saved responses
(what `setupQuestions` in analysisTab.component.tsx dispatches). -/
inductive AnalysisAction where
  | setQuestions (questions : List AnalysisQuestion)
  | editResponse (uuid : String) (value : Option String)
  | markSaved
deriving Repr, DecidableEq

/-- Whether some response differs from its last-saved value. -/
def anyUnsavedResponse (questions : List AnalysisQuestion) : Bool :=
  questions.any (fun q => q.response ≠ q.savedResponse)

/-- Modelled from the spec: `analysisQuestionsReducer`, the "pure state transition
function over `{questions, hasUnsavedWork}`" that "must guarantee `hasUnsavedWork`
reflects exactly whether any response differs from its last-saved value".
Initialization installs the merged questions, whose responses are exactly the
saved values loaded from the server; an edit overwrites one question's current
response; mark-saved records every current response as saved. -/
def analysisQuestionsReducer (st : AnalysisState) (action : AnalysisAction) :
    AnalysisState :=
  match action with
  | .setQuestions qs =>
    let qs' := qs.map (fun q => { q with savedResponse := q.response })
    { questions := qs', hasUnsavedWork := anyUnsavedResponse qs' }
  | .editResponse uuid value =>
    let qs' := st.questions.map
      (fun q => if q.uuid = uuid then { q with response := value } else q)
    { questions := qs', hasUnsavedWork := anyUnsavedResponse qs' }
  | .markSaved =>
    let qs' := st.questions.map (fun q => { q with savedResponse := q.response })
    { questions := qs', hasUnsavedWork := anyUnsavedResponse qs' }

/-- The reducer's initial state (`initialState`): no questions, no unsaved work. -/
def initialState : AnalysisState := { questions := [], hasUnsavedWork := false }

/-- The `AnalysisTab` component runs the reducer and, via the `useEffect` on
`state.hasUnsavedWork` (analysisTab.component.tsx lines 82–87), forwards the flag
to `singleProcessingStore.setAnalysisTabHasUnsavedChanges` whenever it changes:
after each dispatched action the page-level navigation guard holds the current
flag. -/
def runWithGuard (actions : List AnalysisAction) : AnalysisState × Bool :=
  actions.foldl
    (fun p a =>
      let st' := analysisQuestionsReducer p.1 a
      (st', st'.hasUnsavedWork))
    (initialState, initialState.hasUnsavedWork)

/-! ## Theorems -/

/-! Sanity checks of the embedding on concrete inputs. -/

example :
    computePrevNext [3, 5, 7] 5 (some ⟨10, 3, 0⟩) = (3, 7) := by decide

example :
    computePrevNext [3, 5, 7] 7 (some ⟨10, 3, 0⟩) = (5, -2) := by decide

example :
    computePrevNext [3, 5, 7] 3 (some ⟨10, 3, 1⟩) = (-2, 5) := by decide

example :
    computePrevNext [3, 5, 7] 3 (some ⟨3, 3, 0⟩) = (-1, 5) := by decide

example :
    computePrevNext [3, 5, 7] 9 (some ⟨10, 3, 0⟩) = (-1, 3) := by decide

example : jsStringReplace "$##price##" "##price##" "12.00" = "$12.00" := by decide

example : safeExecuteCount true false = 0 := by decide

example : toFixed2 (25 / 10) = "2.50" := by
  have h : ratRound ((25 / 10 : ℚ) * 100) = 250 := by norm_num [ratRound, ratFloor]; decide
  simp [toFixed2, h]; decide


/-- `findIndex` on a list split around the first occurrence of `sid`. -/
theorem findIdx?_notin_append (l₁ l₂ : List Int) (sid : Int) (h : sid ∉ l₁) :
    List.findIdx? (fun k => k = sid) (l₁ ++ sid :: l₂) = some l₁.length := by
  rw [List.findIdx?_append]
  have h1 : List.findIdx? (fun k => k = sid) l₁ = none := by
    rw [List.findIdx?_eq_none_iff]
    intro x hx
    simp only [decide_eq_false_iff_not]
    exact fun he => h (he ▸ hx)
  rw [h1]
  simp [List.findIdx?_cons]

/-- `ids[c - 1]` at the split point is the last element before the occurrence. -/
theorem jsIndex_last (l₁ : List Int) (rest : List Int) (h : l₁ ≠ []) :
    jsIndex (l₁ ++ rest) ((l₁.length : Int) - 1) = l₁.getLast? := by
  unfold jsIndex
  have hlen : 1 ≤ l₁.length := List.length_pos.mpr h
  rw [if_neg (by omega)]
  have htn : ((l₁.length : Int) - 1).toNat = l₁.length - 1 := by omega
  rw [htn, List.get?_eq_getElem?, List.getElem?_append_left (by omega),
    List.getLast?_eq_getElem?]

/-- `ids[c + 1]` at the split point is the head of the tail after the occurrence. -/
theorem jsIndex_next (l₁ l₂ : List Int) (sid : Int) :
    jsIndex (l₁ ++ sid :: l₂) ((l₁.length : Int) + 1) = l₂.head? := by
  unfold jsIndex
  rw [if_neg (by omega)]
  have htn : ((l₁.length : Int) + 1).toNat = l₁.length + 1 := by omega
  rw [htn, List.get?_eq_getElem?, List.getElem?_append_right (by omega)]
  simp [List.head?_eq_getElem?]

/-- When a previous sibling exists in the loaded list, `previous` is that sibling. -/
theorem computePrevNext_prev_some (l₁ l₂ : List Int) (sid p : Int)
    (tableInfo : Option TableInfo)
    (hpos : ∀ x ∈ l₁ ++ sid :: l₂, 0 < x) (hnotin : sid ∉ l₁)
    (hgl : l₁.getLast? = some p) :
    (computePrevNext (l₁ ++ sid :: l₂) sid tableInfo).1 = p := by
  have h1 : l₁ ≠ [] := by intro h; subst h; simp at hgl
  have hj : jsIndex (l₁ ++ sid :: l₂) ((l₁.length : Int) - 1) = some p := by
    rw [jsIndex_last l₁ (sid :: l₂) h1, hgl]
  have hp : 0 < p := hpos p (by
    simp only [List.mem_append]
    exact Or.inl (List.mem_of_mem_getLast? hgl))
  have htr : jsIndexTruthy (l₁ ++ sid :: l₂) ((l₁.length : Int) - 1) = true := by
    simp [jsIndexTruthy, hj]; omega
  unfold computePrevNext
  rw [findIdx?_notin_append l₁ l₂ sid hnotin]
  cases tableInfo with
  | none => simp [htr, hj]
  | some ti =>
    have hne : p ≠ -1 := by omega
    simp [htr, hj, hne]

/-- When no previous sibling is loaded, `previous` is the `-2`/`-1` sentinel. -/
theorem computePrevNext_prev_none (l₂ : List Int) (sid : Int)
    (tableInfo : Option TableInfo) :
    (computePrevNext ([] ++ sid :: l₂) sid tableInfo).1 =
      (match tableInfo with
       | some ti => if ti.currentPage > 0 then -2 else -1
       | none => -1) := by
  have hfind : List.findIdx? (fun k => k = sid) ([] ++ sid :: l₂) = some 0 :=
    findIdx?_notin_append [] l₂ sid (by simp)
  have htr : jsIndexTruthy (sid :: l₂) (-1) = false := rfl
  unfold computePrevNext
  rw [hfind]
  cases tableInfo with
  | none => simp [htr]
  | some ti => simp [htr]

/-- When a next sibling exists in the loaded list, `next` is that sibling. -/
theorem computePrevNext_next_some (l₁ l₂ : List Int) (sid b : Int)
    (tableInfo : Option TableInfo)
    (hpos : ∀ x ∈ l₁ ++ sid :: l₂, 0 < x) (hnotin : sid ∉ l₁)
    (hhd : l₂.head? = some b) :
    (computePrevNext (l₁ ++ sid :: l₂) sid tableInfo).2 = b := by
  have hj : jsIndex (l₁ ++ sid :: l₂) ((l₁.length : Int) + 1) = some b := by
    rw [jsIndex_next l₁ l₂ sid, hhd]
  have hb : 0 < b := hpos b (by
    simp only [List.mem_append, List.mem_cons]
    exact Or.inr (Or.inr (List.mem_of_mem_head? hhd)))
  have htr : jsIndexTruthy (l₁ ++ sid :: l₂) ((l₁.length : Int) + 1) = true := by
    simp [jsIndexTruthy, hj]; omega
  have hne : l₂ ≠ [] := by rintro rfl; simp at hhd
  unfold computePrevNext
  rw [findIdx?_notin_append l₁ l₂ sid hnotin]
  cases tableInfo with
  | none => simp [htr, hj]
  | some ti => simp [htr, hj, hne]

/-- When the current id is the last loaded element, `next` is the `-2`/`-1`
sentinel, depending on whether more results exist past the loaded page. -/
theorem computePrevNext_next_none (l₁ : List Int) (sid : Int)
    (tableInfo : Option TableInfo)
    (hnotin : sid ∉ l₁) :
    (computePrevNext (l₁ ++ [sid]) sid tableInfo).2 =
      (match tableInfo with
       | some ti =>
         if ti.resultsTotal > (ti.currentPage + 1) * ti.pageSize then -2 else -1
       | none => -1) := by
  have hj : jsIndex (l₁ ++ sid :: []) ((l₁.length : Int) + 1) = none := by
    rw [jsIndex_next l₁ [] sid]; rfl
  have htr : jsIndexTruthy (l₁ ++ sid :: []) ((l₁.length : Int) + 1) = false := by
    simp [jsIndexTruthy, hj]
  unfold computePrevNext
  rw [findIdx?_notin_append l₁ [] sid hnotin]
  cases tableInfo with
  | none => simp [htr]
  | some ti => simp [htr]

/-- When the current sid does not occur in the ids list, `findIndex` gives `-1`
and the computed pair degenerates to `ids[0]` for next. -/
theorem computePrevNext_absent_sid (h0 : Int) (tl : List Int) (sid : Int)
    (ti : TableInfo) (habs : sid ∉ h0 :: tl) (htruthy : h0 ≠ 0) :
    computePrevNext (h0 :: tl) sid (some ti) =
      ((if ti.currentPage > 0 then -2 else -1), h0) := by
  have hfind : List.findIdx? (fun k => k = sid) (h0 :: tl) = none := by
    rw [List.findIdx?_eq_none_iff]
    intro x hx
    simp only [decide_eq_false_iff_not]
    exact fun he => habs (he ▸ hx)
  have hprevtr : jsIndexTruthy (h0 :: tl) (-1 - 1) = false := rfl
  have hlen : ¬ ((0 : Int) = (tl.length : Int) + 1) := by omega
  unfold computePrevNext
  rw [hfind]
  simp [hprevtr, jsIndexTruthy, jsIndex, htruthy, hlen]

/-- C1: on a successful fetch the previous/next values stored by `getSubmission`
follow the spec's sentinel rules.  Writing the loaded ids as `l₁ ++ sid :: l₂`
(the current id at its first occurrence, identifiers positive): previous/next
equal the adjacent identifiers `l₁.getLast?` / `l₂.head?` when those exist; next
is `-2` exactly when the current id is the last loaded element (`l₂ = []`) and
`tableInfo.resultsTotal > (tableInfo.currentPage + 1) * tableInfo.pageSize`;
previous is `-2` exactly when no previous element is loaded (`l₁ = []`) and
`tableInfo.currentPage > 0`; and the value is `-1` when no such sibling exists
at all. -/
theorem getSubmission_prevNext_sentinel_rules (l₁ l₂ : List Int) (sid : Int)
    (tableInfo : Option TableInfo) (data : SubmissionResponse) (st : ModalState)
    (hpos : ∀ x ∈ l₁ ++ sid :: l₂, 0 < x) (hnotin : sid ∉ l₁) :
    (∀ p, l₁.getLast? = some p →
      (getSubmissionDoneHandler (l₁ ++ sid :: l₂) sid tableInfo data st).previous
        = p) ∧
    (l₁ = [] →
      (getSubmissionDoneHandler (l₁ ++ sid :: l₂) sid tableInfo data st).previous =
        match tableInfo with
        | some ti => if ti.currentPage > 0 then -2 else -1
        | none => -1) ∧
    (∀ n, l₂.head? = some n →
      (getSubmissionDoneHandler (l₁ ++ sid :: l₂) sid tableInfo data st).next
        = n) ∧
    (l₂ = [] →
      (getSubmissionDoneHandler (l₁ ++ sid :: l₂) sid tableInfo data st).next =
        match tableInfo with
        | some ti =>
          if ti.resultsTotal > (ti.currentPage + 1) * ti.pageSize then -2 else -1
        | none => -1) := by
  refine ⟨?_, ?_, ?_, ?_⟩
  · intro p hgl
    exact computePrevNext_prev_some l₁ l₂ sid p tableInfo hpos hnotin hgl
  · rintro rfl
    exact computePrevNext_prev_none l₂ sid tableInfo
  · intro n hhd
    exact computePrevNext_next_some l₁ l₂ sid n tableInfo hpos hnotin hhd
  · rintro rfl
    exact computePrevNext_next_none l₁ sid tableInfo hnotin

/-- Witness for C1 on concrete pages: in `[3, 5, 7]` at 5 the neighbours are 3
and 7; at the first element of a later page previous is `-2`; at the last element
with more results previous/next sentinels apply. -/
theorem getSubmission_prevNext_sentinel_rules_witness :
    (getSubmissionDoneHandler [3, 5, 7] 5 (some ⟨10, 3, 0⟩) ⟨1, "u", none, []⟩
      (initialModalState "5")).previous = 3 ∧
    (getSubmissionDoneHandler [3, 5, 7] 5 (some ⟨10, 3, 0⟩) ⟨1, "u", none, []⟩
      (initialModalState "5")).next = 7 ∧
    (getSubmissionDoneHandler [5, 7] 5 (some ⟨10, 2, 1⟩) ⟨1, "u", none, []⟩
      (initialModalState "5")).previous = -2 ∧
    (getSubmissionDoneHandler [3, 5] 5 (some ⟨10, 2, 0⟩) ⟨1, "u", none, []⟩
      (initialModalState "5")).next = -2 := by
  refine ⟨?_, ?_, ?_, ?_⟩
  · exact (getSubmission_prevNext_sentinel_rules [3] [7] 5 (some ⟨10, 3, 0⟩)
      ⟨1, "u", none, []⟩ (initialModalState "5") (by decide) (by decide)).1 3 rfl
  · exact (getSubmission_prevNext_sentinel_rules [3] [7] 5 (some ⟨10, 3, 0⟩)
      ⟨1, "u", none, []⟩ (initialModalState "5") (by decide) (by decide)).2.2.1 7 rfl
  · exact (getSubmission_prevNext_sentinel_rules [] [7] 5 (some ⟨10, 2, 1⟩)
      ⟨1, "u", none, []⟩ (initialModalState "5") (by decide) (by decide)).2.1 rfl
  · exact (getSubmission_prevNext_sentinel_rules [3] [] 5 (some ⟨10, 2, 0⟩)
      ⟨1, "u", none, []⟩ (initialModalState "5") (by decide) (by decide)).2.2.2 rfl

/-- C8: when the current sid does not occur in a non-empty ids list (`findIndex`
returns `-1`), a successful fetch sets next to the (truthy) first element
`ids[0]` rather than a sentinel, while previous becomes `-1`, or `-2` when
`tableInfo.currentPage > 0`. -/
theorem getSubmission_absent_sid_first_element (h0 sid : Int) (tl : List Int)
    (ti : TableInfo) (data : SubmissionResponse) (st : ModalState)
    (habs : sid ∉ h0 :: tl) (htruthy : h0 ≠ 0) :
    (getSubmissionDoneHandler (h0 :: tl) sid (some ti) data st).next = h0 ∧
    (getSubmissionDoneHandler (h0 :: tl) sid (some ti) data st).previous =
      (if ti.currentPage > 0 then -2 else -1) := by
  have h := computePrevNext_absent_sid h0 tl sid ti habs htruthy
  constructor
  · show (computePrevNext (h0 :: tl) sid (some ti)).2 = h0
    rw [h]
  · show (computePrevNext (h0 :: tl) sid (some ti)).1 = _
    rw [h]

/-- Witness for C8: sid 9 absent from `[3, 5]` on page 1 gives next 3 and
previous `-2`. -/
theorem getSubmission_absent_sid_first_element_witness :
    (getSubmissionDoneHandler [3, 5] 9 (some ⟨10, 2, 1⟩) ⟨1, "u", none, []⟩
      (initialModalState "9")).next = 3 ∧
    (getSubmissionDoneHandler [3, 5] 9 (some ⟨10, 2, 1⟩) ⟨1, "u", none, []⟩
      (initialModalState "9")).previous = -2 := by
  have h := getSubmission_absent_sid_first_element 3 9 [5] ⟨10, 2, 1⟩
    ⟨1, "u", none, []⟩ (initialModalState "9") (by decide) (by decide)
  exact ⟨h.1, h.2⟩

/-- C4: `ProtectorHelpers.safeExecute` invokes the callback exactly once when
`shouldProtect` is false; when `shouldProtect` is true it invokes the callback
exactly once if the confirmation prompt is affirmed and never if it is declined.
Invocation counts are obtained by instantiating the callback with a counter;
the first conjunct additionally gives the unprotected case for every callback. -/
theorem safeExecute_invocations {α : Type} (shouldProtect confirmResult : Bool)
    (callback : α → α) (st : α) :
    (shouldProtect = false → safeExecute shouldProtect confirmResult callback st =
      callback st) ∧
    (shouldProtect = false → safeExecuteCount shouldProtect confirmResult = 1) ∧
    (shouldProtect = true → confirmResult = true →
      safeExecuteCount shouldProtect confirmResult = 1) ∧
    (shouldProtect = true → confirmResult = false →
      safeExecuteCount shouldProtect confirmResult = 0) := by
  cases shouldProtect <;> cases confirmResult <;>
    simp [safeExecute, safeExecuteCount]

/-- Witness for C4 at concrete inputs: protected-and-affirmed runs once,
protected-and-declined runs zero times, unprotected runs once. -/
theorem safeExecute_invocations_witness :
    safeExecuteCount false false = 1 ∧ safeExecuteCount true true = 1 ∧
      safeExecuteCount true false = 0 :=
  ⟨(safeExecute_invocations false false (fun n : Nat => n + 1) 0).2.1 rfl,
   (safeExecute_invocations true true (fun n : Nat => n + 1) 0).2.2.1 rfl rfl,
   (safeExecute_invocations true false (fun n : Nat => n + 1) 0).2.2.2 rfl rfl⟩

/-- C9: a price whose `unit_amount` is 0 displays as "Free" — the same result as
an absent price or an absent amount — for every recurring interval, transform,
quantity, and adjustment function. -/
theorem useDisplayPrice_zero_amount_is_free
    (adjust : ℚ → Option TransformQuantity → ℚ) (recurring : Option Recurring)
    (tq : Option TransformQuantity) (quantity : ℚ) :
    useDisplayPrice adjust (some ⟨some 0, recurring, tq⟩) quantity = "Free" ∧
    useDisplayPrice adjust (some ⟨none, recurring, tq⟩) quantity = "Free" ∧
    useDisplayPrice adjust none quantity = "Free" := by
  refine ⟨?_, rfl, rfl⟩
  simp [useDisplayPrice]

/-- Helper: `toFixed2` at the value 12. -/
theorem toFixed2_twelve : toFixed2 12 = "12.00" := by
  have h : ratRound ((12 : ℚ) * 100) = 1200 := by
    norm_num [ratRound, ratFloor]; decide
  simp [toFixed2, h]; decide

/-- Helper: `toFixed2` at the value 1. -/
theorem toFixed2_one : toFixed2 1 = "1.00" := by
  have h : ratRound (100 : ℚ) = 100 := by
    norm_num [ratRound, ratFloor]; decide
  simp [toFixed2, h]; decide

/-- C3: `useDisplayPrice` is a pure function of the price and quantity whose only
"error" outcome is "Free" for an absent amount; unit amount 1200 with no recurring
interval and default quantity displays "$12.00"; unit amount 1200 with yearly
interval and default quantity displays "$1.00 USD/month"; and in general a yearly
price is divided by 12 and the result multiplied by the adjustment factor before
two-decimal formatting (the last two conjuncts).  The adjustment factor function
is abstract (`getAdjustedQuantityForPrice` is not among the sources); the spec's
default-quantity examples force its value 1 at the default quantity with no
transform, taken as the hypothesis. -/
theorem useDisplayPrice_contract (adjust : ℚ → Option TransformQuantity → ℚ)
    (hadj : adjust defaultSubmissionQuantity none = 1) :
    (∀ quantity, useDisplayPrice adjust none quantity = "Free") ∧
    (∀ quantity recurring tq,
      useDisplayPrice adjust (some ⟨none, recurring, tq⟩) quantity = "Free") ∧
    useDisplayPrice adjust (some ⟨some 1200, none, none⟩) defaultSubmissionQuantity
      = "$12.00" ∧
    useDisplayPrice adjust (some ⟨some 1200, some ⟨"year"⟩, none⟩)
      defaultSubmissionQuantity = "$1.00 USD/month" ∧
    (∀ ua tq quantity, ua ≠ 0 →
      useDisplayPrice adjust (some ⟨some ua, some ⟨"year"⟩, tq⟩) quantity =
        jsStringReplace "$##price## USD/month" "##price##"
          (toFixed2 (ua / 100 / 12 * adjust quantity tq))) ∧
    (∀ ua tq quantity, ua ≠ 0 →
      useDisplayPrice adjust (some ⟨some ua, none, tq⟩) quantity =
        jsStringReplace "$##price##" "##price##"
          (toFixed2 (ua / 100 * adjust quantity tq))) := by
  refine ⟨fun _ => rfl, fun _ _ _ => rfl, ?_, ?_, ?_, ?_⟩
  · have h12 : ((1200 : ℚ) / 100 * adjust defaultSubmissionQuantity none) = 12 := by
      rw [hadj]; norm_num
    simp [useDisplayPrice, strTruthy, h12, toFixed2_twelve]
    decide
  · have h1 : ((1200 : ℚ) / 100 / 12 * adjust defaultSubmissionQuantity none) = 1 := by
      rw [hadj]; norm_num
    simp [useDisplayPrice, strTruthy, h1, toFixed2_one]
    decide
  · intro ua tq quantity hua
    simp [useDisplayPrice, strTruthy, hua]
  · intro ua tq quantity hua
    simp [useDisplayPrice, strTruthy, hua]

/-- Witness for C3: with the adjustment factor constantly 1, the concrete outputs
"Free", "$12.00" and "$1.00 USD/month" and the yearly division by 12 at
unit amount 2400 and quantity 1. -/
theorem useDisplayPrice_contract_witness :
    useDisplayPrice (fun _ _ => 1) none defaultSubmissionQuantity = "Free" ∧
    useDisplayPrice (fun _ _ => 1) (some ⟨some 1200, none, none⟩)
      defaultSubmissionQuantity = "$12.00" ∧
    useDisplayPrice (fun _ _ => 1) (some ⟨some 1200, some ⟨"year"⟩, none⟩)
      defaultSubmissionQuantity = "$1.00 USD/month" ∧
    useDisplayPrice (fun _ _ => 1) (some ⟨some 2400, some ⟨"year"⟩, none⟩) 1 =
      jsStringReplace "$##price## USD/month" "##price##"
        (toFixed2 ((2400 : ℚ) / 100 / 12 * 1)) := by
  have h := useDisplayPrice_contract (fun _ _ => 1) rfl
  exact ⟨h.1 defaultSubmissionQuantity, h.2.2.1, h.2.2.2.1,
    h.2.2.2.2.1 2400 none 1 (by norm_num)⟩

/-- C5: the failure handler stores exactly one of three messages: the friendly
not-found message (with the submission id substituted for `##id##`) when the
response body equals `{"detail":"Not found."}`; the body text when a (non-empty)
body is present; otherwise the status text when present, and the fixed fallback
string when not. -/
theorem getSubmissionFail_error_classification (error : FailResponse) (sid : String)
    (st : ModalState) :
    (error.responseText = some DETAIL_NOT_FOUND →
      (getSubmissionFailHandler error sid st).1.submissionDataFetchError =
        some (jsStringReplace NOT_FOUND_TEMPLATE "##id##" sid)) ∧
    (∀ body, error.responseText = some body → body ≠ "" → body ≠ DETAIL_NOT_FOUND →
      (getSubmissionFailHandler error sid st).1.submissionDataFetchError =
        some body) ∧
    (strTruthy error.responseText = false → strTruthy error.statusText = true →
      (getSubmissionFailHandler error sid st).1.submissionDataFetchError =
        error.statusText) ∧
    (strTruthy error.responseText = false → strTruthy error.statusText = false →
      (getSubmissionFailHandler error sid st).1.submissionDataFetchError =
        some FALLBACK_ERROR) := by
  refine ⟨?_, ?_, ?_, ?_⟩
  · intro h
    have hne : DETAIL_NOT_FOUND ≠ "" := by decide
    simp [getSubmissionFailHandler, h, strTruthy, hne]
  · intro body h hne hnf
    simp [getSubmissionFailHandler, h, strTruthy, hne, hnf]
  · intro h1 h2
    simp [getSubmissionFailHandler, h1, h2]
  · intro h1 h2
    simp [getSubmissionFailHandler, h1, h2]

/-- Witness for C5: the not-found body at submission id "42" stores the friendly
message; an absent body and status text store the fallback. -/
theorem getSubmissionFail_error_classification_witness :
    (getSubmissionFailHandler ⟨some DETAIL_NOT_FOUND, none⟩ "42"
        (initialModalState "42")).1.submissionDataFetchError =
      some (jsStringReplace NOT_FOUND_TEMPLATE "##id##" "42") ∧
    (getSubmissionFailHandler ⟨none, none⟩ "42"
        (initialModalState "42")).1.submissionDataFetchError = some FALLBACK_ERROR :=
  ⟨(getSubmissionFail_error_classification ⟨some DETAIL_NOT_FOUND, none⟩ "42"
      (initialModalState "42")).1 rfl,
   (getSubmissionFail_error_classification ⟨none, none⟩ "42"
      (initialModalState "42")).2.2.2 rfl rfl⟩

/-- C6: a failed fetch is terminal and atomic — the failure branch of
`getSubmission` records an error message and clears the fetching flag, leaves the
submission, previous and next fields (and all other state) unchanged, and issues
no request (its effect list is empty). -/
theorem getSubmissionFail_is_terminal_and_atomic (error : FailResponse)
    (sid : String) (st : ModalState) :
    (getSubmissionFailHandler error sid st).1.submission = st.submission ∧
    (getSubmissionFailHandler error sid st).1.previous = st.previous ∧
    (getSubmissionFailHandler error sid st).1.next = st.next ∧
    (getSubmissionFailHandler error sid st).1.sid = st.sid ∧
    (getSubmissionFailHandler error sid st).1.isRefreshNeeded = st.isRefreshNeeded ∧
    (getSubmissionFailHandler error sid st).1.isValidationStatusChangePending =
      st.isValidationStatusChangePending ∧
    (getSubmissionFailHandler error sid st).1.isFetchingSubmissionData = false ∧
    ((getSubmissionFailHandler error sid st).1.submissionDataFetchError).isSome
      = true ∧
    (getSubmissionFailHandler error sid st).2 = [] := by
  unfold getSubmissionFailHandler
  split
  · simp
  · split
    · rename_i h1 h2
      cases hst : error.statusText with
      | none => rw [hst] at h2; exact absurd h2 (by simp [strTruthy])
      | some s => simp [hst]
    · simp

/-- C7: every navigation action (`switchSubmission`,
`switchSubmissionFromOtherTablePage`) and the refresh action (`triggerRefresh`)
moves the modal back to the fetching state, and the record is fully reloaded:
`triggerRefresh` fires the fetch itself, the navigation actions replace the modal
with a fresh one whose state holds no submission and whose mount fires the fetch
— no previously viewed record is served from a cache. -/
theorem navigation_and_refresh_always_refetch (st : ModalState) (prevOrNext : Int)
    (ids : List Int) (tableInfo : Option TableInfo) (newPage assetUid sid : String) :
    (switchSubmission prevOrNext ids tableInfo st).1.isFetchingSubmissionData
      = true ∧
    (switchSubmission prevOrNext ids tableInfo st).2 =
      [Effect.showModalSubmission prevOrNext ids tableInfo] ∧
    (switchSubmissionFromOtherTablePage newPage st).1.isFetchingSubmissionData
      = true ∧
    (switchSubmissionFromOtherTablePage newPage st).2 =
      [Effect.showModalOtherPage newPage] ∧
    (triggerRefresh assetUid sid st).1.isFetchingSubmissionData = true ∧
    (triggerRefresh assetUid sid st).2 =
      [Effect.fetchSubmission assetUid sid, Effect.refreshTableSubmissions] ∧
    (initialModalState sid).submission = none ∧
    (componentDidMount assetUid (initialModalState sid)).2 =
      [Effect.fetchSubmission assetUid sid] := by
  exact ⟨rfl, rfl, rfl, rfl, rfl, rfl, rfl, rfl⟩

/-- C10: `refreshSubmissionValidationStatus` clears the pending flag and modifies
only the `_validation_status` field of the in-memory submission — set to the
action result when the result has a truthy `uid`, to the empty object otherwise —
leaving every other field of the submission and of the modal state unchanged;
when no submission is loaded only the pending flag changes. -/
theorem refreshSubmissionValidationStatus_frame
    (result : Option ValidationStatusResponse) (st : ModalState) :
    (refreshSubmissionValidationStatus result st).isValidationStatusChangePending
      = false ∧
    (st.submission = none →
      refreshSubmissionValidationStatus result st =
        { st with isValidationStatusChangePending := false }) ∧
    (∀ sub, st.submission = some sub →
      refreshSubmissionValidationStatus result st =
        { st with
            isValidationStatusChangePending := false
            submission := some
              { sub with
                  _validation_status :=
                    match result with
                    | some r => if strTruthy r.uid then some r else none
                    | none => none } }) := by
  refine ⟨?_, ?_, ?_⟩
  · unfold refreshSubmissionValidationStatus
    cases h : st.submission <;> simp [h]
  · intro h
    simp [refreshSubmissionValidationStatus, h]
  · intro sub h
    unfold refreshSubmissionValidationStatus
    cases result with
    | none => simp [h]
    | some r =>
      by_cases hr : strTruthy r.uid <;> simp [h, hr]

/-- Every state the reducer produces has `hasUnsavedWork` equal to whether some
response differs from its last-saved value. -/
theorem analysisQuestionsReducer_flag_exact (st : AnalysisState) (a : AnalysisAction) :
    (analysisQuestionsReducer st a).hasUnsavedWork =
      anyUnsavedResponse (analysisQuestionsReducer st a).questions := by
  cases a <;> rfl

/-- Along any action trace from the initial state, the reducer's flag is exact and
the page-level guard tracks it. -/
theorem runWithGuard_inv (acts : List AnalysisAction) :
    (runWithGuard acts).2 = (runWithGuard acts).1.hasUnsavedWork ∧
    (runWithGuard acts).1.hasUnsavedWork =
      anyUnsavedResponse (runWithGuard acts).1.questions := by
  suffices h : ∀ (p : AnalysisState × Bool),
      p.2 = p.1.hasUnsavedWork →
      p.1.hasUnsavedWork = anyUnsavedResponse p.1.questions →
      (acts.foldl
        (fun p a =>
          let st' := analysisQuestionsReducer p.1 a
          (st', st'.hasUnsavedWork)) p).2 =
        (acts.foldl
          (fun p a =>
            let st' := analysisQuestionsReducer p.1 a
            (st', st'.hasUnsavedWork)) p).1.hasUnsavedWork ∧
      (acts.foldl
        (fun p a =>
          let st' := analysisQuestionsReducer p.1 a
          (st', st'.hasUnsavedWork)) p).1.hasUnsavedWork =
        anyUnsavedResponse
          ((acts.foldl
            (fun p a =>
              let st' := analysisQuestionsReducer p.1 a
              (st', st'.hasUnsavedWork)) p).1.questions) by
    exact h (initialState, initialState.hasUnsavedWork) rfl rfl
  induction acts with
  | nil => intro p h1 h2; exact ⟨h1, h2⟩
  | cons a rest ih =>
    intro p h1 h2
    exact ih (analysisQuestionsReducer p.1 a,
        (analysisQuestionsReducer p.1 a).hasUnsavedWork) rfl
      (analysisQuestionsReducer_flag_exact p.1 a)

/-- C2: `hasUnsavedWork` is false immediately after the initialize action and
after a mark-saved action, and true after an edit whose value differs from the
question's last-saved response; at every state reachable from the initial state
the flag equals whether some response differs from its last-saved value, and the
guard value forwarded to the page-level store always equals the flag. -/
theorem analysis_hasUnsavedWork_exact (st : AnalysisState)
    (qs : List AnalysisQuestion) (uuid : String) (value : Option String)
    (acts : List AnalysisAction) :
    (analysisQuestionsReducer st (.setQuestions qs)).hasUnsavedWork = false ∧
    (analysisQuestionsReducer st .markSaved).hasUnsavedWork = false ∧
    ((∃ q ∈ st.questions, q.uuid = uuid ∧ q.savedResponse ≠ value) →
      (analysisQuestionsReducer st (.editResponse uuid value)).hasUnsavedWork
        = true) ∧
    (runWithGuard acts).1.hasUnsavedWork =
      anyUnsavedResponse (runWithGuard acts).1.questions ∧
    (runWithGuard acts).2 = (runWithGuard acts).1.hasUnsavedWork := by
  refine ⟨?_, ?_, ?_, (runWithGuard_inv acts).2, (runWithGuard_inv acts).1⟩
  · simp [analysisQuestionsReducer, anyUnsavedResponse, List.any_map, Function.comp]
  · simp [analysisQuestionsReducer, anyUnsavedResponse, List.any_map, Function.comp]
  · rintro ⟨q, hq, huuid, hne⟩
    simp only [analysisQuestionsReducer, anyUnsavedResponse, List.any_map,
      List.any_eq_true, Function.comp]
    refine ⟨q, hq, ?_⟩
    simp [huuid]
    exact fun h => hne h.symm

/-- Witness for C2: initializing with one question then editing it flips the flag
from false to true. -/
theorem analysis_hasUnsavedWork_exact_witness :
    (analysisQuestionsReducer initialState
      (.setQuestions [⟨"q1", some "a", none⟩])).hasUnsavedWork = false ∧
    (analysisQuestionsReducer
      { questions := [⟨"q1", some "a", some "a"⟩], hasUnsavedWork := false }
      (.editResponse "q1" (some "b"))).hasUnsavedWork = true :=
  ⟨(analysis_hasUnsavedWork_exact initialState [⟨"q1", some "a", none⟩] "q1"
      (some "b") []).1,
   (analysis_hasUnsavedWork_exact
      { questions := [⟨"q1", some "a", some "a"⟩], hasUnsavedWork := false }
      [] "q1" (some "b") []).2.2.1
     ⟨⟨"q1", some "a", some "a"⟩, by simp, rfl, by simp⟩⟩

/-- Witness for C10: with a loaded submission and a result carrying uid "vs1",
only `_validation_status` changes; with no loaded submission only the pending
flag clears. -/
theorem refreshSubmissionValidationStatus_frame_witness :
    refreshSubmissionValidationStatus (some ⟨some "vs1", none, none⟩)
        { initialModalState "42" with
            submission := some ⟨7, "u7", none, [("q1", "a1")]⟩
            isValidationStatusChangePending := true } =
      { initialModalState "42" with
          submission := some ⟨7, "u7", some ⟨some "vs1", none, none⟩, [("q1", "a1")]⟩
          isValidationStatusChangePending := false } ∧
    refreshSubmissionValidationStatus none
        { initialModalState "42" with isValidationStatusChangePending := true } =
      { initialModalState "42" with isValidationStatusChangePending := false } := by
  constructor
  · have h := (refreshSubmissionValidationStatus_frame
      (some ⟨some "vs1", none, none⟩)
      { initialModalState "42" with
          submission := some ⟨7, "u7", none, [("q1", "a1")]⟩
          isValidationStatusChangePending := true }).2.2
      ⟨7, "u7", none, [("q1", "a1")]⟩ rfl
    rw [h]; rfl
  · have h := (refreshSubmissionValidationStatus_frame none
      { initialModalState "42" with isValidationStatusChangePending := true }).2.1
      rfl
    rw [h]
